import Mathlib

/-!
Shallow embedding of the Ella Rises management web application
(`src/index.js`): an Express server providing role-gated CRUD routes over
participants, donations, surveys, events, milestones and users, plus a
public donation flow and profile-picture upload.

Database tables are lists of row structures; each route handler is a pure
function from its session, request data and database state to the new
state and a `Response` value.  Database errors are modelled by an
`Option String` parameter (`none` = all queries succeed, `some e` = the
first query throws error `e`), mirroring the single `try`/`catch` block
of each handler.  JavaScript peculiarities that the routes rely on
(`parseInt`, `x || 1` falsiness, strict equality against
`null`/`undefined`/`NaN`, SQL `= NULL` matching nothing) are modelled
explicitly below.
-/

namespace EllaRises

/-- JavaScript `parseInt(s)` (radix 10 with the automatic `0x` hex prefix):
skips leading whitespace, takes an optional sign, then the longest prefix
of digits; returns `none` for `NaN` (no digits). -/
def jsParseInt (s : String) : Option Int :=
  let cs := s.data.dropWhile (fun c => c.isWhitespace)
  let signed : Int × List Char :=
    match cs with
    | '-' :: rest => (-1, rest)
    | '+' :: rest => (1, rest)
    | _ => (1, cs)
  match signed with
  | (sign, body) =>
    match body with
    | '0' :: 'x' :: rest =>
        let ds := rest.takeWhile (fun c => c.isDigit || ('a' ≤ c && c ≤ 'f') || ('A' ≤ c && c ≤ 'F'))
        if ds.isEmpty then some 0   -- "0x" with no hex digits parses as 0
        else some (sign * (ds.foldl (fun n c =>
          n * 16 + (if c.isDigit then c.toNat - 48
                    else if 'a' ≤ c && c ≤ 'f' then c.toNat - 87
                    else c.toNat - 55)) 0 : Nat))
    | '0' :: 'X' :: rest =>
        let ds := rest.takeWhile (fun c => c.isDigit || ('a' ≤ c && c ≤ 'f') || ('A' ≤ c && c ≤ 'F'))
        if ds.isEmpty then some 0
        else some (sign * (ds.foldl (fun n c =>
          n * 16 + (if c.isDigit then c.toNat - 48
                    else if 'a' ≤ c && c ≤ 'f' then c.toNat - 87
                    else c.toNat - 55)) 0 : Nat))
    | _ =>
        let ds := body.takeWhile (fun c => c.isDigit)
        if ds.isEmpty then none
        else some (sign * (ds.foldl (fun n c => n * 10 + (c.toNat - 48)) 0 : Nat))

/-- The page number computed by `const page = parseInt(req.query.page) || 1`:
a missing parameter (`parseInt(undefined)` is `NaN`), a non-numeric value
(`NaN`) and `0` are all falsy and default to `1`. -/
def resolvePage (pageParam : Option String) : Int :=
  match pageParam with
  | none => 1
  | some s =>
    match jsParseInt s with
    | none => 1
    | some n => if n = 0 then 1 else n

/-- Strict JavaScript equality `parseInt(x) === y` between two possibly
absent numbers: `NaN`, `null` and `undefined` are never strictly equal to
anything (including each other, for distinct-typed `null`s/`NaN`). -/
def jsStrictEqNat : Option Nat → Option Nat → Bool
  | some a, some b => a == b
  | _, _ => false

/-- SQL equality of a column against a possibly-`null` binding
(knex `where(col, v)`): comparing with `NULL` never matches a row. -/
def sqlEqOpt : Option Nat → Option Nat → Bool
  | some a, some b => a == b
  | _, _ => false

/-- Lower-case an ASCII string (model of the case folding done by
PostgreSQL `ILIKE`). -/
def lowerStr (s : String) : String :=
  String.mk (s.data.map Char.toLower)

/-- Substring test on character lists. -/
def isSubstr (pat : List Char) : List Char → Bool
  | [] => pat.isEmpty
  | c :: rest => pat.isPrefixOf (c :: rest) || isSubstr pat rest

/-- Model of `col ILIKE '%q%'`: case-insensitive substring containment. -/
def ilikeContains (hay q : String) : Bool :=
  isSubstr (lowerStr q).data (lowerStr hay).data

/-- Strict numeric parse used for `!isNaN(searchQuery)` followed by
`donation_amount = searchQuery`: whole-string integer (amounts are
modelled as integers; fractional search terms are out of scope of every
claim). -/
def jsNumericQ (s : String) : Option Int :=
  let cs := (s.data.dropWhile (fun c => c.isWhitespace)).reverse.dropWhile (fun c => c.isWhitespace) |>.reverse
  match cs with
  | [] => some 0     -- Number("") is 0 in JavaScript
  | '-' :: rest => if rest ≠ [] && rest.all (fun c => c.isDigit)
      then some (-(rest.foldl (fun n c => n * 10 + (c.toNat - 48)) 0 : Nat)) else none
  | _ => if cs.all (fun c => c.isDigit)
      then some (cs.foldl (fun n c => n * 10 + (c.toNat - 48)) 0 : Nat) else none

/-- Calendar date (the time-of-day component plays no role in any claim). -/
structure Date where
  year : Nat
  month : Nat
  day : Nat
  deriving DecidableEq, Repr

/-- Zero-padded two-digit field, as produced by `TO_CHAR`'s `MM`/`DD`. -/
def pad2 (n : Nat) : String :=
  if n < 10 then "0" ++ toString n else toString n

/-- Model of `TO_CHAR(d, 'MM/DD/YYYY')`. -/
def toCharMMDDYYYY (d : Date) : String :=
  pad2 d.month ++ "/" ++ pad2 d.day ++ "/" ++ toString d.year

/-- Model of `TO_CHAR(d, 'YYYY-MM-DD')`. -/
def toCharYYYYMMDD (d : Date) : String :=
  toString d.year ++ "-" ++ pad2 d.month ++ "-" ++ toString d.day

/-- Month name as produced by `TO_CHAR(d, 'Month')` (the blank padding to
nine characters is immaterial under a substring `ILIKE` match). -/
def monthNameOf (m : Nat) : String :=
  match m with
  | 1 => "January" | 2 => "February" | 3 => "March" | 4 => "April"
  | 5 => "May" | 6 => "June" | 7 => "July" | 8 => "August"
  | 9 => "September" | 10 => "October" | 11 => "November" | 12 => "December"
  | _ => ""

/-- Numeric sort key for dates (later dates have larger keys). -/
def dateKey (d : Date) : Nat :=
  (d.year * 100 + d.month) * 100 + d.day

/-- Insert into a sorted list, keeping elements `le`-sorted. -/
def insertBy (le : α → α → Bool) (a : α) : List α → List α
  | [] => [a]
  | b :: bs => if le a b then a :: b :: bs else b :: insertBy le a bs

/-- Insertion sort modelling SQL `ORDER BY` (the relative order of rows
with equal keys is unspecified by the database and irrelevant here). -/
def sortBy (le : α → α → Bool) : List α → List α
  | [] => []
  | a :: as => insertBy le a (sortBy le as)

theorem length_insertBy (le : α → α → Bool) (a : α) (l : List α) :
    (insertBy le a l).length = l.length + 1 := by
  induction l with
  | nil => rfl
  | cons b bs ih =>
    simp only [insertBy]
    by_cases h : le a b = true
    · simp [h]
    · simp [h, ih]

theorem length_sortBy (le : α → α → Bool) (l : List α) :
    (sortBy le l).length = l.length := by
  induction l with
  | nil => rfl
  | cons a as ih => simp [sortBy, length_insertBy, ih]

theorem mem_of_mem_insertBy {le : α → α → Bool} {a b : α} {l : List α}
    (h : b ∈ insertBy le a l) : b = a ∨ b ∈ l := by
  induction l with
  | nil => simpa [insertBy] using h
  | cons c cs ih =>
    simp only [insertBy] at h
    by_cases hc : le a c = true
    · simp [hc] at h
      rcases h with h | h | h
      · exact Or.inl h
      · exact Or.inr (by simp [h])
      · exact Or.inr (by simp [h])
    · simp [hc] at h
      rcases h with h | h
      · exact Or.inr (by simp [h])
      · rcases ih h with h' | h'
        · exact Or.inl h'
        · exact Or.inr (by simp [h'])

theorem mem_of_mem_sortBy {le : α → α → Bool} {a : α} {l : List α}
    (h : a ∈ sortBy le l) : a ∈ l := by
  induction l with
  | nil => simp [sortBy] at h
  | cons b bs ih =>
    simp only [sortBy] at h
    rcases mem_of_mem_insertBy h with h' | h'
    · simp [h']
    · simp [ih h']

/-! ### Data model

Row structures for the tables touched by the routes.  Columns that no
route reads or writes (e.g. `phone`, `zip_code`) are omitted; nullable
foreign keys are `Option Nat`. -/

/-- Row of the `participants` table. -/
structure Participant where
  participant_id : Nat
  first_name : String
  last_name : String
  email : String
  city : String
  profilePictureUrl : Option String
  deriving DecidableEq, Repr

/-- Row of the `donations` table (amounts modelled as integers). -/
structure Donation where
  donation_id : Nat
  participant_id : Nat
  donation_amount : Int
  donation_date : Date
  deriving DecidableEq, Repr

/-- Row of the `surveys` table. -/
structure Survey where
  survey_id : Nat
  participant_id : Option Nat
  event_occurrence_id : Nat
  score_satisfaction : Option Int
  score_usefulness : Option Int
  score_instructor : Option Int
  score_recommendation : Option Int
  score_overall : Option Int
  nps_bucket_id : Option Nat
  comments : String
  submission_date : Date
  deriving DecidableEq, Repr

/-- Row of the `registrations` join table. -/
structure Registration where
  participant_id : Nat
  event_occurrence_id : Nat
  deriving DecidableEq, Repr

/-- Row of the `milestones` table. -/
structure Milestone where
  milestone_id : Nat
  participant_id : Nat
  milestone_type_id : Nat
  milestone_date : Date
  deriving DecidableEq, Repr

/-- Row of the `milestone_types` lookup table. -/
structure MilestoneType where
  milestone_type_id : Nat
  milestone_title : String
  deriving DecidableEq, Repr

/-- Row of the `users` table. -/
structure UserRow where
  user_id : Nat
  username : String
  password : String
  role : String
  participant_id : Option Nat
  deriving DecidableEq, Repr

/-- Row of the `event_occurrences` table. -/
structure EventOccurrence where
  event_occurrence_id : Nat
  event_template_id : Nat
  location_id : Nat
  start_time : Date
  deriving DecidableEq, Repr

/-- Row of the `event_templates` table. -/
structure EventTemplate where
  event_template_id : Nat
  event_name : String
  event_description : String
  deriving DecidableEq, Repr

/-- Row of the `locations` table. -/
structure Location where
  location_id : Nat
  location_name : String
  deriving DecidableEq, Repr

/-- The whole relational state the routes read and write. -/
structure DBState where
  participants : List Participant
  donations : List Donation
  surveys : List Survey
  registrations : List Registration
  milestones : List Milestone
  milestone_types : List MilestoneType
  users : List UserRow
  event_occurrences : List EventOccurrence
  event_templates : List EventTemplate
  locations : List Location
  deriving DecidableEq, Repr

/-- The server-side session (`req.session`).  `none` models an unset
(`undefined`) or `null` field; in particular `userId` models
`req.session.user_id`, which `POST /login` and `POST /signup` never
assign. -/
structure Session where
  isLoggedIn : Bool
  username : Option String
  role : Option String
  participantId : Option Nat
  userId : Option Nat
  profilePictureUrl : Option String
  deriving DecidableEq, Repr

/-- Joined row rendered by `GET /donations`
(`donations.*` plus the participant's name columns). -/
structure DonationView where
  donation : Donation
  first_name : String
  last_name : String
  deriving DecidableEq, Repr

/-- Joined row rendered by `GET /surveys`. -/
structure SurveyView where
  survey : Survey
  first_name : String
  last_name : String
  event_name : String
  start_time : Date
  deriving DecidableEq, Repr

/-- Joined row rendered by `GET /events` (`survey_id` is the left-joined
column selected only for non-manager sessions). -/
structure EventView where
  occ : EventOccurrence
  event_name : String
  event_description : String
  location_name : String
  survey_id : Option Nat
  deriving DecidableEq, Repr

/-- Joined row rendered by `GET /milestones`. -/
structure MilestoneView where
  milestone : Milestone
  first_name : String
  last_name : String
  milestone_title : String
  deriving DecidableEq, Repr

/-- Joined row rendered by `GET /users` (left join, so the participant
name columns may be `null`). -/
structure UserView where
  user : UserRow
  first_name : Option String
  last_name : Option String
  deriving DecidableEq, Repr

/-- Payload common to the paginated collection renders. -/
structure ListView (α : Type) where
  rows : List α
  isManager : Bool
  query : Option String
  currentPage : Int
  totalPages : Nat
  deriving DecidableEq, Repr

/-- The response a handler sends: a redirect, an error status with a
message, or a rendered template with its view data. -/
inductive Response where
  | redirect (path : String)
  | serverError (msg : String)
  | forbidden (msg : String)
  | badRequest (msg : String)
  | renderLogin (error_message : Option String)
  | renderSignup (error_message : Option String)
  | renderDonate (success_message : Option String) (participant : Option Participant)
  | renderDashboard (greeting : String) (user : Option String)
      (participants donations events : Nat)
  | participantsView (v : ListView Participant)
  | donationsView (v : ListView DonationView)
  | surveysView (v : ListView SurveyView)
  | eventsView (v : ListView EventView)
  | milestonesView (v : ListView MilestoneView)
  | usersView (rows : List UserView) (role : Option String) (query : Option String)
  deriving DecidableEq, Repr

/-! ### Middleware and shared query plumbing -/

/-- Middleware `isLoggedIn`: passes when the session marks logged in. -/
def isLoggedInSess (sess : Session) : Bool :=
  sess.isLoggedIn

/-- Middleware `isManager`:
`req.session.isLoggedIn && req.session.role === 'manager'`. -/
def isManagerSess (sess : Session) : Bool :=
  sess.isLoggedIn && sess.role == some "manager"

/-- Scoping test used by every listing's `applyFilters`:
`req.session.role !== 'manager' && req.session.username !== 'superuser'`. -/
def isScoped (sess : Session) : Bool :=
  !(sess.role == some "manager") && !(sess.username == some "superuser")

/-- The fixed page size (`const limit = 100`). -/
def pageSize : Nat := 100

/-- The data query's offset, `(page - 1) * limit`.  Claims only involve
`page ≥ 1`; PostgreSQL rejects negative offsets, which we clamp. -/
def pageOffset (page : Int) : Nat :=
  ((page - 1) * (pageSize : Int)).toNat

/-- The reported page count, `Math.ceil(totalCount / limit)`. -/
def totalPagesOf (count : Nat) : Nat :=
  (count + pageSize - 1) / pageSize

/-- A search parameter is applied only when truthy
(`if (searchQuery) ...`; the empty string is falsy). -/
def searchActive (q : Option String) : Bool :=
  match q with
  | none => false
  | some s => !(s == "")

/-- Keep the rows matching the active search predicate, or all rows when
no search is active. -/
def applySearch (q : Option String) (pred : String → α → Bool)
    (rows : List α) : List α :=
  match q with
  | none => rows
  | some s => if s == "" then rows else rows.filter (pred s)

/-- Search predicate of `GET /participants`: first or last name,
concatenated full name, email or city, all `ILIKE '%q%'`. -/
def participantMatches (s : String) (r : Participant) : Bool :=
  ilikeContains r.first_name s || ilikeContains r.last_name s ||
  ilikeContains (r.first_name ++ " " ++ r.last_name) s ||
  ilikeContains r.email s || ilikeContains r.city s

/-- Search predicate of `GET /donations`: participant name columns and
full name, exact amount when the query is numeric, and three `TO_CHAR`
renderings of the donation date. -/
def donationMatches (s : String) (r : DonationView) : Bool :=
  ilikeContains r.first_name s || ilikeContains r.last_name s ||
  ilikeContains (r.first_name ++ " " ++ r.last_name) s ||
  (match jsNumericQ s with
   | some v => r.donation.donation_amount == v
   | none => false) ||
  ilikeContains (toCharMMDDYYYY r.donation.donation_date) s ||
  ilikeContains (toCharYYYYMMDD r.donation.donation_date) s ||
  ilikeContains (monthNameOf r.donation.donation_date.month) s

/-- Search predicate of `GET /surveys`: names, full name, event name,
comments, and the `MM/DD/YYYY` submission date. -/
def surveyMatches (s : String) (r : SurveyView) : Bool :=
  ilikeContains r.first_name s || ilikeContains r.last_name s ||
  ilikeContains (r.first_name ++ " " ++ r.last_name) s ||
  ilikeContains r.event_name s || ilikeContains r.survey.comments s ||
  ilikeContains (toCharMMDDYYYY r.survey.submission_date) s

/-- Search predicate of `GET /events`: event name, location name, and the
`MM/DD/YYYY` start time. -/
def eventMatches (s : String) (r : EventView) : Bool :=
  ilikeContains r.event_name s || ilikeContains r.location_name s ||
  ilikeContains (toCharMMDDYYYY r.occ.start_time) s

/-- Search predicate of `GET /milestones`: participant first name,
milestone title, and the `MM/DD/YYYY` milestone date. -/
def milestoneMatches (s : String) (r : MilestoneView) : Bool :=
  ilikeContains r.first_name s || ilikeContains r.milestone_title s ||
  ilikeContains (toCharMMDDYYYY r.milestone.milestone_date) s

/-- Search predicate of `GET /users`: username only. -/
def userMatches (s : String) (r : UserView) : Bool :=
  ilikeContains r.user.username s

/-! ### Listing pipelines

Each listing builds one filtered row set used both for the count query
(`totalPages`) and the data query (`limit`/`offset`), exactly as the
shared `applyFilters` helper is applied to both queries in the source. -/

/-- Matching rows of `GET /participants`: scope to the caller's own
record unless manager or superuser, apply the search, order by
`participant_id`. -/
def participantsMatching (sess : Session) (q : Option String)
    (db : DBState) : List Participant :=
  let scopedRows := if isScoped sess
    then db.participants.filter
      (fun r => sqlEqOpt (some r.participant_id) sess.participantId)
    else db.participants
  sortBy (fun a b => a.participant_id ≤ b.participant_id)
    (applySearch q participantMatches scopedRows)

/-- Joined base rows of `GET /donations`
(inner join with `participants`). -/
def donationsJoined (db : DBState) : List DonationView :=
  db.donations.flatMap (fun d =>
    (db.participants.filter
        (fun p => p.participant_id == d.participant_id)).map
      (fun p => ⟨d, p.first_name, p.last_name⟩))

/-- Matching rows of `GET /donations`, ordered by donation date
descending. -/
def donationsMatching (sess : Session) (q : Option String)
    (db : DBState) : List DonationView :=
  let scopedRows := if isScoped sess
    then (donationsJoined db).filter
      (fun r => sqlEqOpt (some r.donation.participant_id) sess.participantId)
    else donationsJoined db
  sortBy (fun a b => dateKey b.donation.donation_date ≤ dateKey a.donation.donation_date)
    (applySearch q donationMatches scopedRows)

/-- Joined base rows of `GET /surveys` (inner joins with `participants`,
`event_occurrences` and `event_templates`; a `NULL` survey
`participant_id` joins nothing). -/
def surveysJoined (db : DBState) : List SurveyView :=
  db.surveys.flatMap (fun s =>
    (db.participants.filter
        (fun p => some p.participant_id == s.participant_id)).flatMap
      (fun p =>
        (db.event_occurrences.filter
            (fun o => o.event_occurrence_id == s.event_occurrence_id)).flatMap
          (fun o =>
            (db.event_templates.filter
                (fun t => t.event_template_id == o.event_template_id)).map
              (fun t => ⟨s, p.first_name, p.last_name, t.event_name, o.start_time⟩))))

/-- Matching rows of `GET /surveys`, ordered by submission date
descending. -/
def surveysMatching (sess : Session) (q : Option String)
    (db : DBState) : List SurveyView :=
  let scopedRows := if isScoped sess
    then (surveysJoined db).filter
      (fun r => sqlEqOpt r.survey.participant_id sess.participantId)
    else surveysJoined db
  sortBy (fun a b => dateKey b.survey.submission_date ≤ dateKey a.survey.submission_date)
    (applySearch q surveyMatches scopedRows)

/-- Joined base rows of `GET /events`: occurrences joined with templates
and locations; for scoped (non-manager, non-superuser) sessions the query
additionally inner-joins `registrations` on the caller's participant and
left-joins that participant's `surveys` to pick up `survey_id`. -/
def eventsJoined (sess : Session) (db : DBState) : List EventView :=
  let base := db.event_occurrences.flatMap (fun o =>
    (db.event_templates.filter
        (fun t => t.event_template_id == o.event_template_id)).flatMap
      (fun t =>
        (db.locations.filter (fun l => l.location_id == o.location_id)).map
          (fun l => (o, t, l))))
  if isScoped sess then
    base.flatMap (fun otl =>
      match otl with
      | (o, t, l) =>
        (db.registrations.filter
            (fun g => g.event_occurrence_id == o.event_occurrence_id &&
              sqlEqOpt (some g.participant_id) sess.participantId)).flatMap
          (fun _ =>
            let svs := db.surveys.filter
              (fun s => s.event_occurrence_id == o.event_occurrence_id &&
                sqlEqOpt s.participant_id sess.participantId)
            match svs with
            | [] => [⟨o, t.event_name, t.event_description, l.location_name, none⟩]
            | _ => svs.map (fun s =>
                ⟨o, t.event_name, t.event_description, l.location_name, some s.survey_id⟩)))
  else
    base.map (fun otl =>
      match otl with
      | (o, t, l) => ⟨o, t.event_name, t.event_description, l.location_name, none⟩)

/-- Matching rows of `GET /events`, ordered by start time descending. -/
def eventsMatching (sess : Session) (q : Option String)
    (db : DBState) : List EventView :=
  sortBy (fun a b => dateKey b.occ.start_time ≤ dateKey a.occ.start_time)
    (applySearch q eventMatches (eventsJoined sess db))

/-- Joined base rows of `GET /milestones` (inner joins with
`participants` and `milestone_types`). -/
def milestonesJoined (db : DBState) : List MilestoneView :=
  db.milestones.flatMap (fun m =>
    (db.participants.filter
        (fun p => p.participant_id == m.participant_id)).flatMap
      (fun p =>
        (db.milestone_types.filter
            (fun t => t.milestone_type_id == m.milestone_type_id)).map
          (fun t => ⟨m, p.first_name, p.last_name, t.milestone_title⟩)))

/-- Matching rows of `GET /milestones`, ordered by milestone date
descending. -/
def milestonesMatching (sess : Session) (q : Option String)
    (db : DBState) : List MilestoneView :=
  let scopedRows := if isScoped sess
    then (milestonesJoined db).filter
      (fun r => sqlEqOpt (some r.milestone.participant_id) sess.participantId)
    else milestonesJoined db
  sortBy (fun a b => dateKey b.milestone.milestone_date ≤ dateKey a.milestone.milestone_date)
    (applySearch q milestoneMatches scopedRows)

/-- Matching rows of `GET /users` (left join with `participants`,
username search only, ordered by `user_id`, with no pagination at all in
the source). -/
def usersMatching (q : Option String) (db : DBState) : List UserView :=
  let joined := db.users.map (fun u =>
    match db.participants.filter
        (fun p => some p.participant_id == u.participant_id) with
    | [] => (⟨u, none, none⟩ : UserView)
    | p :: _ => ⟨u, some p.first_name, some p.last_name⟩)
  sortBy (fun a b => a.user.user_id ≤ b.user.user_id)
    (applySearch q userMatches joined)

/-! ### Listing handlers -/

/-- Core of `GET /participants` after the page parameter is parsed. -/
def participantsCore (dbErr : Option String) (sess : Session)
    (db : DBState) (page : Int) (q : Option String) : Response :=
  match dbErr with
  | some _ => .serverError "Error fetching participants"
  | none =>
    let matching := participantsMatching sess q db
    .participantsView
      { rows := (matching.drop (pageOffset page)).take pageSize
        isManager := sess.role == some "manager"
        query := q
        currentPage := page
        totalPages := totalPagesOf matching.length }

/-- `GET /participants` (guarded by `isLoggedIn`). -/
def participantsHandler (dbErr : Option String) (sess : Session)
    (db : DBState) (pageParam q : Option String) : Response :=
  if isLoggedInSess sess then
    participantsCore dbErr sess db (resolvePage pageParam) q
  else .redirect "/login"

/-- Core of `GET /donations`. -/
def donationsCore (dbErr : Option String) (sess : Session)
    (db : DBState) (page : Int) (q : Option String) : Response :=
  match dbErr with
  | some _ => .serverError "Error"
  | none =>
    let matching := donationsMatching sess q db
    .donationsView
      { rows := (matching.drop (pageOffset page)).take pageSize
        isManager := sess.role == some "manager"
        query := q
        currentPage := page
        totalPages := totalPagesOf matching.length }

/-- `GET /donations` (guarded by `isLoggedIn`). -/
def donationsHandler (dbErr : Option String) (sess : Session)
    (db : DBState) (pageParam q : Option String) : Response :=
  if isLoggedInSess sess then
    donationsCore dbErr sess db (resolvePage pageParam) q
  else .redirect "/login"

/-- Core of `GET /surveys`. -/
def surveysCore (dbErr : Option String) (sess : Session)
    (db : DBState) (page : Int) (q : Option String) : Response :=
  match dbErr with
  | some _ => .serverError "Error"
  | none =>
    let matching := surveysMatching sess q db
    .surveysView
      { rows := (matching.drop (pageOffset page)).take pageSize
        isManager := sess.role == some "manager"
        query := q
        currentPage := page
        totalPages := totalPagesOf matching.length }

/-- `GET /surveys` (guarded by `isLoggedIn`). -/
def surveysHandler (dbErr : Option String) (sess : Session)
    (db : DBState) (pageParam q : Option String) : Response :=
  if isLoggedInSess sess then
    surveysCore dbErr sess db (resolvePage pageParam) q
  else .redirect "/login"

/-- Core of `GET /events`. -/
def eventsCore (dbErr : Option String) (sess : Session)
    (db : DBState) (page : Int) (q : Option String) : Response :=
  match dbErr with
  | some _ => .serverError "Error"
  | none =>
    let matching := eventsMatching sess q db
    .eventsView
      { rows := (matching.drop (pageOffset page)).take pageSize
        isManager := sess.role == some "manager"
        query := q
        currentPage := page
        totalPages := totalPagesOf matching.length }

/-- `GET /events` (guarded by `isLoggedIn`). -/
def eventsHandler (dbErr : Option String) (sess : Session)
    (db : DBState) (pageParam q : Option String) : Response :=
  if isLoggedInSess sess then
    eventsCore dbErr sess db (resolvePage pageParam) q
  else .redirect "/login"

/-- Core of `GET /milestones`. -/
def milestonesCore (dbErr : Option String) (sess : Session)
    (db : DBState) (page : Int) (q : Option String) : Response :=
  match dbErr with
  | some _ => .serverError "Error"
  | none =>
    let matching := milestonesMatching sess q db
    .milestonesView
      { rows := (matching.drop (pageOffset page)).take pageSize
        isManager := sess.role == some "manager"
        query := q
        currentPage := page
        totalPages := totalPagesOf matching.length }

/-- `GET /milestones` (guarded by `isLoggedIn`). -/
def milestonesHandler (dbErr : Option String) (sess : Session)
    (db : DBState) (pageParam q : Option String) : Response :=
  if isLoggedInSess sess then
    milestonesCore dbErr sess db (resolvePage pageParam) q
  else .redirect "/login"

/-- `GET /users` (guarded by `isManager`): fetches every matching user in
one unpaginated query — the route reads no `page` parameter and renders
no page count. -/
def usersHandler (dbErr : Option String) (sess : Session)
    (db : DBState) (_pageParam q : Option String) : Response :=
  if isManagerSess sess then
    match dbErr with
    | some _ => .serverError "Error retrieving users"
    | none => .usersView (usersMatching q db) sess.role q
  else .forbidden "Access Denied: Managers only."

/-! ### Authentication routes -/

/-- Lookup of `POST /login`:
`db("users").where({ username }).first()`. -/
def findUser (db : DBState) (username : String) : Option UserRow :=
  db.users.find? (fun u => u.username == username)

/-- Profile-picture fetch performed on successful login when
`user.participant_id` is truthy (`0`, `null` and `undefined` are falsy,
so no fetch happens for them). -/
def loginPicture (db : DBState) (sess : Session) (u : UserRow) : Option String :=
  match u.participant_id with
  | some pid =>
    if pid == 0 then sess.profilePictureUrl
    else
      match db.participants.find? (fun p => p.participant_id == pid) with
      | some p => p.profilePictureUrl
      | none => none
  | none => sess.profilePictureUrl

/-- `POST /login`: on an exact username/password match the session is
populated (`isLoggedIn`, `username`, `role`, `participantId` and, for a
linked participant, `profilePictureUrl`; note that `user_id` is NOT
stored) and the user is redirected by role; on a missing user or a
password mismatch the login form is re-rendered with the one generic
message; on a database error it re-renders with "System Error". -/
def loginHandler (dbErr : Option String) (sess : Session) (db : DBState)
    (username password : String) : Session × Response :=
  match dbErr with
  | some _ => (sess, .renderLogin (some "System Error"))
  | none =>
    match findUser db username with
    | some u =>
      if u.password == password then
        let sess' : Session :=
          { sess with
            isLoggedIn := true
            username := some u.username
            role := some u.role
            participantId := u.participant_id
            profilePictureUrl := loginPicture db sess u }
        (sess',
         .redirect (if u.role == "manager" || u.username == "superuser"
                    then "/dashboard" else "/events"))
      else (sess, .renderLogin (some "Invalid credentials"))
    | none => (sess, .renderLogin (some "Invalid credentials"))

/-- Form body of `POST /signup`. -/
structure SignupBody where
  username : String
  password : String
  first_name : String
  last_name : String
  email : String
  deriving DecidableEq, Repr

/-- `POST /signup`: inserts a participant, then a linked `role = 'user'`
user row, logs the new account in (again without setting
`session.user_id`) and redirects to `/events`; on a database error the
signup form re-renders with a fixed message (partial-failure granularity
between the two inserts is not modelled — no claim depends on it). -/
def signupHandler (dbErr : Option String) (sess : Session) (db : DBState)
    (body : SignupBody) (newPid newUid : Nat) : DBState × Session × Response :=
  match dbErr with
  | some _ =>
    (db, sess,
     .renderSignup (some "Error creating account. Username or Email might already be taken."))
  | none =>
    let db' : DBState :=
      { db with
        participants := db.participants ++
          [{ participant_id := newPid, first_name := body.first_name,
             last_name := body.last_name, email := body.email,
             city := "", profilePictureUrl := none }]
        users := db.users ++
          [{ user_id := newUid, username := body.username,
             password := body.password, role := "user",
             participant_id := some newPid }] }
    let sess' : Session :=
      { sess with
        isLoggedIn := true
        username := some body.username
        role := some "user"
        participantId := some newPid }
    (db', sess', .redirect "/events")

/-! ### Donation routes -/

/-- `GET /donate` (public): when the caller is logged in with a linked
participant, that participant row is fetched to autofill the form — and a
fetch error is caught and logged, the page rendering normally without
autofill. -/
def donateGetHandler (dbErr : Option String) (sess : Session)
    (db : DBState) : Response :=
  let participant :=
    if sess.isLoggedIn then
      match sess.participantId with
      | some pid =>
        match dbErr with
        | some _ => none
        | none => db.participants.find? (fun p => p.participant_id == pid)
      | none => none
    else none
  .renderDonate none participant

/-- Form body of `POST /donate`. -/
structure DonateBody where
  first_name : String
  last_name : String
  email : String
  donation_amount : Int
  deriving DecidableEq, Repr

/-- `POST /donate`: find-or-create the participant by email, insert the
donation, thank the donor; a database error yields a 500. -/
def donatePostHandler (dbErr : Option String) (body : DonateBody)
    (db : DBState) (newPid newDid : Nat) (today : Date) : DBState × Response :=
  match dbErr with
  | some _ => (db, .serverError "Error processing donation.")
  | none =>
    let found := db.participants.find? (fun p => p.email == body.email)
    let pdb : Nat × DBState :=
      match found with
      | some p => (p.participant_id, db)
      | none =>
        (newPid,
         { db with participants := db.participants ++
            [{ participant_id := newPid, first_name := body.first_name,
               last_name := body.last_name, email := body.email,
               city := "", profilePictureUrl := none }] })
    let pid := pdb.1
    let db₁ := pdb.2
    let db₂ := { db₁ with donations := db₁.donations ++
      [{ donation_id := newDid, participant_id := pid,
         donation_amount := body.donation_amount, donation_date := today }] }
    (db₂, .renderDonate (some ("Thank you, " ++ body.first_name ++ "!")) none)

/-! ### Dashboard -/

/-- Greeting chosen from the server clock's hour. -/
def greetingFor (hour : Nat) : String :=
  if 12 ≤ hour ∧ hour < 17 then "Good Afternoon"
  else if 17 ≤ hour then "Good Evening"
  else "Good Morning"

/-- Capitalisation of the username
(`charAt(0).toUpperCase() + slice(1)`). -/
def capitalizeFirst (s : String) : String :=
  match s.data with
  | [] => ""
  | c :: rest => String.mk (c.toUpper :: rest)

/-- `GET /dashboard` (guarded by `isLoggedIn`; non-managers other than
the superuser are bounced to `/events`): renders aggregate row counts.
The three count queries sit in a `try` whose `catch` only logs, so on a
database error the page still renders — with the initial zero stats. -/
def dashboardHandler (dbErr : Option String) (sess : Session)
    (db : DBState) (hour : Nat) : Response :=
  if isLoggedInSess sess then
    if isScoped sess then .redirect "/events"
    else
      let stats :=
        match dbErr with
        | some _ => (0, 0, 0)
        | none => (db.participants.length, db.donations.length,
                   db.event_occurrences.length)
      match stats with
      | (p, d, e) =>
        .renderDashboard (greetingFor hour) (sess.username.map capitalizeFirst) p d e
  else .redirect "/login"

/-! ### Profile-picture routes -/

/-- Body of the image routes: `participant_id` is `none` when the form
field is absent or empty (falsy). -/
structure ImageBody where
  participant_id : Option Nat
  deriving DecidableEq, Repr

/-- Target resolution shared by both image routes: default to the
caller's own linked participant, overridden by the form field only for
managers. -/
def resolveTargetId (sess : Session) (body : ImageBody) : Option Nat :=
  if sess.role == some "manager" && body.participant_id.isSome then
    body.participant_id
  else sess.participantId

/-- `POST /participants/upload-image` (guarded by `isLoggedIn`): with no
file, redirect untouched; otherwise store the S3 URL on the resolved
target row and refresh the session's cached URL exactly when
`parseInt(targetId) === req.session.participantId`. -/
def uploadImageHandler (dbErr : Option String) (sess : Session)
    (body : ImageBody) (file : Option String) (db : DBState) :
    DBState × Session × Response :=
  if isLoggedInSess sess then
    match file with
    | none => (db, sess, .redirect "/participants")
    | some s3Url =>
      match dbErr with
      | some _ => (db, sess, .serverError "Error uploading image")
      | none =>
        let targetId := resolveTargetId sess body
        let db' := { db with participants := db.participants.map (fun r =>
          if sqlEqOpt (some r.participant_id) targetId
          then { r with profilePictureUrl := some s3Url } else r) }
        if jsStrictEqNat targetId sess.participantId then
          (db', { sess with profilePictureUrl := some s3Url },
           .redirect "/participants")
        else (db', sess, .redirect "/participants")
  else (db, sess, .redirect "/login")

/-- `POST /participants/delete-image` (guarded by `isLoggedIn`): same
target resolution, sets the stored URL to `null`, and clears the
session's cached URL exactly when the target is the caller's own
participant. -/
def deleteImageHandler (dbErr : Option String) (sess : Session)
    (body : ImageBody) (db : DBState) : DBState × Session × Response :=
  if isLoggedInSess sess then
    match dbErr with
    | some _ => (db, sess, .serverError "Error deleting image")
    | none =>
      let targetId := resolveTargetId sess body
      let db' := { db with participants := db.participants.map (fun r =>
        if sqlEqOpt (some r.participant_id) targetId
        then { r with profilePictureUrl := none } else r) }
      if jsStrictEqNat targetId sess.participantId then
        (db', { sess with profilePictureUrl := none }, .redirect "/participants")
      else (db', sess, .redirect "/participants")
  else (db, sess, .redirect "/login")

/-! ### Cascading participant delete -/

/-- Step A of the cascade: `trx("donations").where({participant_id}).del()`. -/
def delDonations (pid : Nat) (db : DBState) : DBState :=
  { db with donations := db.donations.filter (fun d => !(d.participant_id == pid)) }

/-- Step B: `trx("surveys").where({participant_id}).del()`. -/
def delSurveys (pid : Nat) (db : DBState) : DBState :=
  { db with surveys := db.surveys.filter (fun s => !(s.participant_id == some pid)) }

/-- Step C: `trx("registrations").where({participant_id}).del()`. -/
def delRegistrations (pid : Nat) (db : DBState) : DBState :=
  { db with registrations := db.registrations.filter (fun g => !(g.participant_id == pid)) }

/-- Step D: `trx("milestones").where({participant_id}).del()`. -/
def delMilestones (pid : Nat) (db : DBState) : DBState :=
  { db with milestones := db.milestones.filter (fun m => !(m.participant_id == pid)) }

/-- Step E: `trx("users").where({participant_id}).del()`. -/
def delUsers (pid : Nat) (db : DBState) : DBState :=
  { db with users := db.users.filter (fun u => !(u.participant_id == some pid)) }

/-- Step F: `trx("participants").where({participant_id}).del()`. -/
def delParticipant (pid : Nat) (db : DBState) : DBState :=
  { db with participants := db.participants.filter (fun p => !(p.participant_id == pid)) }

/-- The six deletes executed inside the transaction of
`POST /participants/delete/:id`, children before parent, in source
order. -/
def cascadeSteps (pid : Nat) : List (DBState → DBState) :=
  [delDonations pid, delSurveys pid, delRegistrations pid,
   delMilestones pid, delUsers pid, delParticipant pid]

/-- Run the steps of a `db.transaction`: `failStep = some k` with `k`
inside the step list means step `k` throws, the transaction rolls back
and nothing is committed (`none`); otherwise every step commits. -/
def runTransaction (steps : List (DBState → DBState)) (db : DBState)
    (failStep : Option Nat) : Option DBState :=
  match failStep with
  | none => some (steps.foldl (fun s f => f s) db)
  | some k =>
    if k < steps.length then none
    else some (steps.foldl (fun s f => f s) db)

/-- `POST /participants/delete/:id` (guarded by `isManager`): the manual
cascade inside one atomic transaction; on any failure the caller gets the
generic 500 and the state is untouched. -/
def participantsDeleteHandler (sess : Session) (pid : Nat) (db : DBState)
    (failStep : Option Nat) : DBState × Response :=
  if isManagerSess sess then
    match runTransaction (cascadeSteps pid) db failStep with
    | some db' => (db', .redirect "/participants")
    | none =>
      (db, .serverError "Error deleting participant. They may have other linked records.")
  else (db, .forbidden "Access Denied: Managers only.")

/-! ### Survey routes -/

/-- NPS bucket computed by `POST /submit-survey` from
`parseInt(recommend)`: 1–3 Detractor (1), 4 Passive (2), 5 Promoter (3),
anything else (including `NaN`) `null`. -/
def npsBucket (recScore : Option Int) : Option Nat :=
  match recScore with
  | some r =>
    if 1 ≤ r ∧ r ≤ 3 then some 1
    else if r = 4 then some 2
    else if r = 5 then some 3
    else none
  | none => none

/-- Form body of `POST /submit-survey` (scores carry the parsed numeric
value, `none` for a non-numeric submission). -/
structure SubmitSurveyForm where
  event_id : Nat
  satisfaction : Option Int
  usefulness : Option Int
  instructor : Option Int
  recommend : Option Int
  overall : Option Int
  comments : String
  deriving DecidableEq, Repr

/-- `POST /submit-survey` (guarded by `isLoggedIn`): redirect silently if
a survey by this participant for this event occurrence already exists,
otherwise insert one with the derived NPS bucket; a database error is a
500 echoing the error message. -/
def submitSurveyHandler (dbErr : Option String) (sess : Session)
    (form : SubmitSurveyForm) (db : DBState) (newSid : Nat)
    (today : Date) : DBState × Response :=
  if isLoggedInSess sess then
    match dbErr with
    | some e => (db, .serverError ("Error submitting survey: " ++ e))
    | none =>
      let existing := db.surveys.find? (fun s =>
        sqlEqOpt s.participant_id sess.participantId &&
        s.event_occurrence_id == form.event_id)
      match existing with
      | some _ => (db, .redirect "/events")
      | none =>
        (({ db with surveys := db.surveys ++
            [{ survey_id := newSid
               participant_id := sess.participantId
               event_occurrence_id := form.event_id
               score_satisfaction := form.satisfaction
               score_usefulness := form.usefulness
               score_instructor := form.instructor
               score_recommendation := form.recommend
               score_overall := form.overall
               nps_bucket_id := npsBucket form.recommend
               comments := form.comments
               submission_date := today }] }),
         .redirect "/events")
  else (db, .redirect "/login")

/-- Form body of the manager survey routes (`/surveys/add` posts every
column, the NPS bucket included, directly from the form). -/
structure SurveyBody where
  participant_id : Option Nat
  event_occurrence_id : Nat
  score_satisfaction : Option Int
  score_usefulness : Option Int
  score_instructor : Option Int
  score_recommendation : Option Int
  score_overall : Option Int
  nps_bucket_id : Option Nat
  comments : String
  deriving DecidableEq, Repr

/-- The row inserted by `POST /surveys/add`:
`{ ...req.body, submission_date: new Date() }` — no existence check and
no bucket derivation. -/
def surveyFromBody (body : SurveyBody) (newSid : Nat) (today : Date) : Survey :=
  { survey_id := newSid
    participant_id := body.participant_id
    event_occurrence_id := body.event_occurrence_id
    score_satisfaction := body.score_satisfaction
    score_usefulness := body.score_usefulness
    score_instructor := body.score_instructor
    score_recommendation := body.score_recommendation
    score_overall := body.score_overall
    nps_bucket_id := body.nps_bucket_id
    comments := body.comments
    submission_date := today }

/-- `POST /surveys/add` (guarded by `isManager`): bare insert with no
`try`/`catch`, so a database error produces no response at all
(`none`). -/
def addSurveyHandler (dbErr : Option String) (sess : Session)
    (body : SurveyBody) (db : DBState) (newSid : Nat) (today : Date) :
    DBState × Option Response :=
  if isManagerSess sess then
    match dbErr with
    | some _ => (db, none)
    | none =>
      ({ db with surveys := db.surveys ++ [surveyFromBody body newSid today] },
       some (.redirect "/surveys"))
  else (db, some (.forbidden "Access Denied: Managers only."))

/-- `POST /surveys/edit/:id` (guarded by `isManager`): bare
`update(req.body)` of the posted columns on the addressed row, again with
no `try`/`catch`. -/
def editSurveyHandler (dbErr : Option String) (sess : Session)
    (sid : Nat) (body : SurveyBody) (db : DBState) :
    DBState × Option Response :=
  if isManagerSess sess then
    match dbErr with
    | some _ => (db, none)
    | none =>
      ({ db with surveys := db.surveys.map (fun s =>
          if s.survey_id == sid then
            { s with
              participant_id := body.participant_id
              event_occurrence_id := body.event_occurrence_id
              score_satisfaction := body.score_satisfaction
              score_usefulness := body.score_usefulness
              score_instructor := body.score_instructor
              score_recommendation := body.score_recommendation
              score_overall := body.score_overall
              nps_bucket_id := body.nps_bucket_id
              comments := body.comments }
          else s) },
       some (.redirect "/surveys"))
  else (db, some (.forbidden "Access Denied: Managers only."))

/-! ### User management -/

/-- `POST /users/delete/:id` (guarded by `isManager`): rejects with 400
when `parseInt(req.params.id) === req.session.user_id`, else deletes the
row; the delete is bare (no `try`/`catch`). -/
def usersDeleteHandler (dbErr : Option String) (sess : Session)
    (targetId : Nat) (db : DBState) : DBState × Option Response :=
  if isManagerSess sess then
    if jsStrictEqNat (some targetId) sess.userId then
      (db, some (.badRequest "Cannot delete self."))
    else
      match dbErr with
      | some _ => (db, none)
      | none =>
        ({ db with users := db.users.filter (fun u => !(u.user_id == targetId)) },
         some (.redirect "/users"))
  else (db, some (.forbidden "Access Denied: Managers only."))

/-! ### Projections for stating properties of rendered collections -/

/-- Rows of a rendered participants page (empty for any other response). -/
def respRowsP : Response → List Participant
  | .participantsView v => v.rows
  | _ => []

/-- Rows of a rendered donations page. -/
def respRowsD : Response → List DonationView
  | .donationsView v => v.rows
  | _ => []

/-- Rows of a rendered surveys page. -/
def respRowsS : Response → List SurveyView
  | .surveysView v => v.rows
  | _ => []

/-- Rows of a rendered events page. -/
def respRowsE : Response → List EventView
  | .eventsView v => v.rows
  | _ => []

/-- Rows of a rendered milestones page. -/
def respRowsM : Response → List MilestoneView
  | .milestonesView v => v.rows
  | _ => []

/-- Rows of a rendered users page. -/
def respRowsU : Response → List UserView
  | .usersView rows _ _ => rows
  | _ => []

/-- Page count reported by a rendered collection (0 elsewhere; the users
page genuinely reports none). -/
def respTotalPages : Response → Nat
  | .participantsView v => v.totalPages
  | .donationsView v => v.totalPages
  | .surveysView v => v.totalPages
  | .eventsView v => v.totalPages
  | .milestonesView v => v.totalPages
  | _ => 0

/-- Auxiliary: re-filtering with a predicate right after filtering with
its negation leaves nothing. -/
theorem filter_after_filter_not (p : α → Bool) (l : List α) :
    (l.filter (fun a => !(p a))).filter p = [] := by
  induction l with
  | nil => rfl
  | cons a l ih => by_cases h : p a <;> simp [h, ih]

/-! ### Claims -/

/-- C1: for every participant id, `POST /participants/delete/:id` removes,
inside one atomic transaction, every `donations`, `surveys`,
`registrations`, `milestones` and `users` row referencing the participant
and then the participant row itself, redirecting on success with zero
referencing rows left in all six tables; if any of the six steps fails,
the transaction rolls back, the database is exactly as before, and the
caller gets the generic 500 failure message. -/
theorem participants_delete_cascades_atomically (sess : Session) (pid : Nat)
    (db : DBState) (hl : sess.isLoggedIn = true)
    (hm : sess.role = some "manager") :
    ((participantsDeleteHandler sess pid db none).1.donations.filter
        (fun d => d.participant_id == pid) = [] ∧
     (participantsDeleteHandler sess pid db none).1.surveys.filter
        (fun s => s.participant_id == some pid) = [] ∧
     (participantsDeleteHandler sess pid db none).1.registrations.filter
        (fun g => g.participant_id == pid) = [] ∧
     (participantsDeleteHandler sess pid db none).1.milestones.filter
        (fun m => m.participant_id == pid) = [] ∧
     (participantsDeleteHandler sess pid db none).1.users.filter
        (fun u => u.participant_id == some pid) = [] ∧
     (participantsDeleteHandler sess pid db none).1.participants.filter
        (fun p => p.participant_id == pid) = [] ∧
     (participantsDeleteHandler sess pid db none).2 = .redirect "/participants") ∧
    (∀ k, k < 6 → participantsDeleteHandler sess pid db (some k) =
      (db, .serverError "Error deleting participant. They may have other linked records.")) := by
  have hmgr : isManagerSess sess = true := by
    simp [isManagerSess, hl, hm]
  constructor
  · simp only [participantsDeleteHandler, hmgr, if_pos, runTransaction,
      cascadeSteps, List.foldl_cons, List.foldl_nil, delDonations, delSurveys,
      delRegistrations, delMilestones, delUsers, delParticipant]
    refine ⟨?_, ?_, ?_, ?_, ?_, ?_, ?_⟩ <;>
      first
        | exact filter_after_filter_not _ _
        | trivial
  · intro k hk
    have hlen : k < (cascadeSteps pid).length := by
      simpa [cascadeSteps] using hk
    simp [participantsDeleteHandler, hmgr, runTransaction, hlen]

/-! ### Concrete fixtures used by witnesses and counterexamples -/

/-- A session as it exists before any login (every field unset). -/
def emptySession : Session :=
  { isLoggedIn := false, username := none, role := none,
    participantId := none, userId := none, profilePictureUrl := none }

/-- A logged-in manager session as `POST /login` populates it
(`user_id` in particular is never written). -/
def mgrSession : Session :=
  { isLoggedIn := true, username := some "boss", role := some "manager",
    participantId := some 1, userId := none, profilePictureUrl := none }

/-- A logged-in session for the hardcoded superuser account, whose role
is an ordinary `'user'` (the login route's `username === 'superuser'`
special case exists precisely because this account is not a manager). -/
def superuserSession : Session :=
  { isLoggedIn := true, username := some "superuser", role := some "user",
    participantId := some 1, userId := none, profilePictureUrl := none }

/-- A fixed calendar date. -/
def sampleDate : Date := ⟨2025, 3, 14⟩

/-- A completely empty database. -/
def dbEmpty : DBState :=
  { participants := [], donations := [], surveys := [], registrations := [],
    milestones := [], milestone_types := [], users := [],
    event_occurrences := [], event_templates := [], locations := [] }

/-- A small database: two participants and a manager login linked to
participant 1. -/
def dbSmall : DBState :=
  { dbEmpty with
    participants :=
      [ { participant_id := 1, first_name := "Ana", last_name := "Perez",
          email := "ana@example.org", city := "Provo", profilePictureUrl := none },
        { participant_id := 2, first_name := "Bob", last_name := "Young",
          email := "bob@example.org", city := "Orem", profilePictureUrl := none } ]
    donations :=
      [ { donation_id := 1, participant_id := 1, donation_amount := 50,
          donation_date := sampleDate },
        { donation_id := 2, participant_id := 2, donation_amount := 75,
          donation_date := sampleDate } ]
    users :=
      [ { user_id := 5, username := "boss", password := "pw",
          role := "manager", participant_id := some 1 } ] }

/-- Witness for the cascade-delete claim at participant 1 of the small
database: the success branch leaves no referencing donation, and a
failure at the first step returns the untouched state with the generic
500. -/
theorem participants_delete_cascades_atomically_witness :
    (participantsDeleteHandler mgrSession 1 dbSmall none).1.donations.filter
        (fun d => d.participant_id == 1) = [] ∧
    participantsDeleteHandler mgrSession 1 dbSmall (some 0) =
      (dbSmall, .serverError "Error deleting participant. They may have other linked records.") :=
  ⟨(participants_delete_cascades_atomically mgrSession 1 dbSmall rfl rfl).1.1,
   (participants_delete_cascades_atomically mgrSession 1 dbSmall rfl rfl).2 0 (by decide)⟩

/-- C2 counterexample: a logged-in session whose role is `'user'` — not
`'manager'` — but whose username is the hardcoded `'superuser'` bypasses
the scoping filter, so `GET /participants` returns participant 2's row
although the session's linked participant is 1. -/
theorem superuser_session_sees_other_participants :
    (respRowsP (participantsHandler none superuserSession dbSmall none none)).any
      (fun r => !(r.participant_id == 1)) = true := by
  decide

/-- Membership in a searched row set implies membership in the
underlying row set. -/
theorem mem_of_mem_applySearch {q : Option String} {pred : String → α → Bool}
    {rows : List α} {a : α} (h : a ∈ applySearch q pred rows) : a ∈ rows := by
  cases q with
  | none => exact h
  | some s =>
    simp only [applySearch] at h
    by_cases hs : (s == "") = true
    · simpa [hs] using h
    · simp only [hs, if_false] at h
      exact List.mem_of_mem_filter h

/-- Membership in a page implies membership in the full ordered row
set. -/
theorem mem_of_mem_page {l : List α} {n k : Nat} {a : α}
    (h : a ∈ (l.drop k).take n) : a ∈ l :=
  List.drop_subset k l (List.take_subset n _ h)

/-- `sqlEqOpt` against a present binding is plain equality. -/
theorem sqlEqOpt_some_right (x : Option Nat) (p : Nat) :
    sqlEqOpt x (some p) = (x == some p) := by
  cases x <;> rfl

/-- C2 (amended: the hardcoded `'superuser'` username must be excluded
along with managers, per the scoping rule's own wording): for every
session whose role is not `'manager'` and whose username is not
`'superuser'`, every row returned by the participants, donations,
surveys and milestones listings belongs to the session's linked
participant. -/
theorem listings_scoped_to_own_participant (dbErr : Option String)
    (sess : Session) (db : DBState) (pp q : Option String) (p : Nat)
    (hr : sess.role ≠ some "manager") (hu : sess.username ≠ some "superuser")
    (hp : sess.participantId = some p) :
    (∀ r ∈ respRowsP (participantsHandler dbErr sess db pp q),
        r.participant_id = p) ∧
    (∀ r ∈ respRowsD (donationsHandler dbErr sess db pp q),
        r.donation.participant_id = p) ∧
    (∀ r ∈ respRowsS (surveysHandler dbErr sess db pp q),
        r.survey.participant_id = some p) ∧
    (∀ r ∈ respRowsM (milestonesHandler dbErr sess db pp q),
        r.milestone.participant_id = p) := by
  have hsc : isScoped sess = true := by
    simp [isScoped, hr, hu]
  by_cases hl : sess.isLoggedIn = true
  case neg =>
    have hl' : isLoggedInSess sess = false := by
      simp [isLoggedInSess]
      exact Bool.not_eq_true _ ▸ (by simpa using hl)
    refine ⟨?_, ?_, ?_, ?_⟩ <;>
      · intro r hmem
        simp [participantsHandler, donationsHandler, surveysHandler,
          milestonesHandler, hl', respRowsP, respRowsD, respRowsS,
          respRowsM] at hmem
  case pos =>
    have hl' : isLoggedInSess sess = true := hl
    cases dbErr with
    | some e =>
      refine ⟨?_, ?_, ?_, ?_⟩ <;>
        · intro r hmem
          simp [participantsHandler, donationsHandler, surveysHandler,
            milestonesHandler, participantsCore, donationsCore, surveysCore,
            milestonesCore, hl', respRowsP, respRowsD, respRowsS,
            respRowsM] at hmem
    | none =>
      refine ⟨?_, ?_, ?_, ?_⟩
      · intro r hmem
        simp only [participantsHandler, hl', if_true, participantsCore,
          respRowsP] at hmem
        have h1 : r ∈ participantsMatching sess q db := mem_of_mem_page hmem
        simp only [participantsMatching, hsc, if_true] at h1
        have h2 := mem_of_mem_applySearch (mem_of_mem_sortBy h1)
        have h3 := (List.mem_filter.mp h2).2
        rw [hp, sqlEqOpt_some_right] at h3
        simpa using h3
      · intro r hmem
        simp only [donationsHandler, hl', if_true, donationsCore,
          respRowsD] at hmem
        have h1 : r ∈ donationsMatching sess q db := mem_of_mem_page hmem
        simp only [donationsMatching, hsc, if_true] at h1
        have h2 := mem_of_mem_applySearch (mem_of_mem_sortBy h1)
        have h3 := (List.mem_filter.mp h2).2
        rw [hp, sqlEqOpt_some_right] at h3
        simpa using h3
      · intro r hmem
        simp only [surveysHandler, hl', if_true, surveysCore,
          respRowsS] at hmem
        have h1 : r ∈ surveysMatching sess q db := mem_of_mem_page hmem
        simp only [surveysMatching, hsc, if_true] at h1
        have h2 := mem_of_mem_applySearch (mem_of_mem_sortBy h1)
        have h3 := (List.mem_filter.mp h2).2
        rw [hp, sqlEqOpt_some_right] at h3
        simpa using h3
      · intro r hmem
        simp only [milestonesHandler, hl', if_true, milestonesCore,
          respRowsM] at hmem
        have h1 : r ∈ milestonesMatching sess q db := mem_of_mem_page hmem
        simp only [milestonesMatching, hsc, if_true] at h1
        have h2 := mem_of_mem_applySearch (mem_of_mem_sortBy h1)
        have h3 := (List.mem_filter.mp h2).2
        rw [hp, sqlEqOpt_some_right] at h3
        simpa using h3

/-- A logged-in non-manager, non-superuser session linked to
participant 1. -/
def userSession : Session :=
  { isLoggedIn := true, username := some "ana", role := some "user",
    participantId := some 1, userId := none, profilePictureUrl := none }

/-- Witness for the amended scoping claim: for the ordinary user session
every row of each of the four listings over the small database belongs to
participant 1. -/
theorem listings_scoped_to_own_participant_witness :
    (∀ r ∈ respRowsP (participantsHandler none userSession dbSmall none none),
        r.participant_id = 1) ∧
    (∀ r ∈ respRowsD (donationsHandler none userSession dbSmall none none),
        r.donation.participant_id = 1) ∧
    (∀ r ∈ respRowsS (surveysHandler none userSession dbSmall none none),
        r.survey.participant_id = some 1) ∧
    (∀ r ∈ respRowsM (milestonesHandler none userSession dbSmall none none),
        r.milestone.participant_id = 1) :=
  listings_scoped_to_own_participant none userSession dbSmall none none 1
    (by decide) (by decide) rfl

/-- C3 (code bug): the self-deletion guard of `POST /users/delete/:id`
compares the target id against `req.session.user_id`, a field that
`POST /login` never sets; hence a manager who logs in (user id 5) and
posts a delete of their own id is not rejected — the row is deleted and
the response is the normal redirect, contradicting the documented
"Cannot delete self." rejection. -/
theorem self_delete_guard_is_dead_code :
    (loginHandler none emptySession dbSmall "boss" "pw").1.userId = none ∧
    (usersDeleteHandler none (loginHandler none emptySession dbSmall "boss" "pw").1
        5 dbSmall).1.users = [] ∧
    (usersDeleteHandler none (loginHandler none emptySession dbSmall "boss" "pw").1
        5 dbSmall).2 = some (.redirect "/users") := by
  refine ⟨rfl, ?_, ?_⟩ <;> decide

/-- A manager-posted survey body whose recommendation score (5, Promoter)
disagrees with the bucket picked in the form (1, Detractor). -/
def mismatchedSurveyBody : SurveyBody :=
  { participant_id := some 1, event_occurrence_id := 7,
    score_satisfaction := some 5, score_usefulness := some 5,
    score_instructor := some 5, score_recommendation := some 5,
    score_overall := some 5, nps_bucket_id := some 1, comments := "" }

/-- C4 counterexample: `POST /surveys/add` inserts `req.body` verbatim,
so a manager can write a survey row whose `nps_bucket_id` (1) differs
from the bucket derived from its recommendation score (5 ↦ 3): the claim
fails for the manager survey-add operation. -/
theorem manager_add_breaks_nps_invariant :
    ∃ s ∈ (addSurveyHandler none mgrSession mismatchedSurveyBody dbEmpty
        10 sampleDate).1.surveys,
      s.nps_bucket_id ≠ npsBucket s.score_recommendation := by
  decide

/-- C4 (amended: only the user survey-submission route derives the
bucket; the manager add/edit routes store whatever `nps_bucket_id` the
request body carries, unchecked): every row written by
`POST /submit-survey` satisfies `nps_bucket_id =
npsBucket score_recommendation`; the bucket function maps 1–3 to
Detractor (1), 4 to Passive (2), 5 to Promoter (3) and anything else to
`null`; and the manager add/edit routes copy the body's bucket
verbatim. -/
theorem submit_survey_derives_nps_bucket (dbErr : Option String)
    (sess : Session) (form : SubmitSurveyForm) (db : DBState)
    (nid : Nat) (today : Date) :
    (∀ s ∈ (submitSurveyHandler dbErr sess form db nid today).1.surveys,
        s ∈ db.surveys ∨ s.nps_bucket_id = npsBucket s.score_recommendation) ∧
    (∀ r : Int, 1 ≤ r → r ≤ 3 → npsBucket (some r) = some 1) ∧
    npsBucket (some 4) = some 2 ∧
    npsBucket (some 5) = some 3 ∧
    (∀ r : Int, r < 1 ∨ 5 < r → npsBucket (some r) = none) ∧
    npsBucket none = none ∧
    (∀ body nid2 today2,
        (surveyFromBody body nid2 today2).nps_bucket_id = body.nps_bucket_id) ∧
    (∀ sid body db2 s, s ∈ (editSurveyHandler none sess sid body db2).1.surveys →
        isManagerSess sess = true → s.survey_id = sid →
        s.nps_bucket_id = body.nps_bucket_id) := by
  refine ⟨?_, ?_, ?_, ?_, ?_, rfl, fun _ _ _ => rfl, ?_⟩
  · intro s hmem
    by_cases hl : isLoggedInSess sess = true
    · cases dbErr with
      | some e =>
        simp only [submitSurveyHandler, hl, if_true] at hmem
        exact Or.inl hmem
      | none =>
        simp only [submitSurveyHandler, hl, if_true] at hmem
        rcases hfind : db.surveys.find? (fun s =>
            sqlEqOpt s.participant_id sess.participantId &&
            s.event_occurrence_id == form.event_id) with _ | found
        · rw [hfind] at hmem
          simp only [List.mem_append, List.mem_singleton] at hmem
          rcases hmem with h | h
          · exact Or.inl h
          · subst h
            exact Or.inr rfl
        · rw [hfind] at hmem
          exact Or.inl hmem
    · rw [Bool.not_eq_true] at hl
      simp only [submitSurveyHandler, hl, Bool.false_eq_true, if_false] at hmem
      exact Or.inl hmem
  · intro r h1 h3
    simp [npsBucket, h1, h3]
  · rfl
  · rfl
  · intro r hout
    rcases hout with h | h
    · simp only [npsBucket]
      have hn1 : ¬ (1 ≤ r ∧ r ≤ 3) := by omega
      have hn4 : ¬ (r = 4) := by omega
      have hn5 : ¬ (r = 5) := by omega
      simp [hn1, hn4, hn5]
    · simp only [npsBucket]
      have hn1 : ¬ (1 ≤ r ∧ r ≤ 3) := by omega
      have hn4 : ¬ (r = 4) := by omega
      have hn5 : ¬ (r = 5) := by omega
      simp [hn1, hn4, hn5]
  · intro sid body db2 s hmem hmgr hsid
    simp only [editSurveyHandler, hmgr, if_true] at hmem
    rcases List.mem_map.mp hmem with ⟨a, _, hfa⟩
    by_cases hid : (a.survey_id == sid) = true
    · rw [hid] at hfa
      simp only [if_true] at hfa
      subst hfa
      rfl
    · rw [Bool.not_eq_true] at hid
      rw [hid] at hfa
      simp only [Bool.false_eq_true, if_false] at hfa
      subst hfa
      simp only [beq_eq_false_iff_ne] at hid
      exact absurd hsid hid

/-- A well-formed user survey submission (recommendation 4, Passive). -/
def sampleForm : SubmitSurveyForm :=
  { event_id := 7, satisfaction := some 4, usefulness := some 4,
    instructor := some 4, recommend := some 4, overall := some 4,
    comments := "ok" }

/-- Witness for the amended NPS claim: buckets computed at concrete
scores through the theorem. -/
theorem submit_survey_derives_nps_bucket_witness :
    npsBucket (some 2) = some 1 ∧ npsBucket (some 7) = none :=
  ⟨(submit_survey_derives_nps_bucket none userSession sampleForm dbEmpty
      20 sampleDate).2.1 2 (by decide) (by decide),
   (submit_survey_derives_nps_bucket none userSession sampleForm dbEmpty
      20 sampleDate).2.2.2.2.1 7 (Or.inr (by decide))⟩

/-- A manager-posted survey body for participant 1 and event occurrence
7. -/
def dupSurveyBody : SurveyBody :=
  { participant_id := some 1, event_occurrence_id := 7,
    score_satisfaction := some 3, score_usefulness := some 3,
    score_instructor := some 3, score_recommendation := some 3,
    score_overall := some 3, nps_bucket_id := some 1, comments := "" }

/-- C5 counterexample: `POST /surveys/add` performs no existence check,
so two manager adds for the same (participant 1, event occurrence 7)
pair leave two survey rows for that pair — refuting "no sequence of
survey-creating operations ever produces two survey rows for the same
pair". -/
theorem manager_add_allows_duplicate_pair :
    ((addSurveyHandler none mgrSession dupSurveyBody
        (addSurveyHandler none mgrSession dupSurveyBody dbEmpty 10 sampleDate).1
        11 sampleDate).1.surveys.filter
      (fun s => s.participant_id == some 1 && s.event_occurrence_id == 7)).length
      = 2 := by
  decide

/-- Filtering a one-element list yields at most one element. -/
theorem length_filter_singleton_le_one (p : α → Bool) (a : α) :
    ([a].filter p).length ≤ 1 := by
  by_cases h : p a = true <;> simp [List.filter_cons, h]

/-- C5 (amended: the existence-check guarantee holds for the user
submission route `POST /submit-survey` only; the manager
`POST /surveys/add` route inserts without any check): a second
submission for an already-surveyed (participant, event occurrence) pair
is silently redirected with no insert, and submissions preserve the
at-most-one-row-per-pair invariant. -/
theorem submit_survey_one_per_pair (sess : Session) (form : SubmitSurveyForm)
    (db : DBState) (nid : Nat) (today : Date) (p : Nat)
    (hl : sess.isLoggedIn = true) (hp : sess.participantId = some p) :
    ((∃ s ∈ db.surveys, s.participant_id = some p ∧
        s.event_occurrence_id = form.event_id) →
      submitSurveyHandler none sess form db nid today = (db, .redirect "/events")) ∧
    ((∀ p' e, (db.surveys.filter (fun s =>
        s.participant_id == some p' && s.event_occurrence_id == e)).length ≤ 1) →
      ∀ p' e, ((submitSurveyHandler none sess form db nid today).1.surveys.filter
        (fun s =>
          s.participant_id == some p' && s.event_occurrence_id == e)).length ≤ 1) := by
  have hl' : isLoggedInSess sess = true := hl
  have hpred : ∀ s : Survey,
      (sqlEqOpt s.participant_id sess.participantId &&
        s.event_occurrence_id == form.event_id) =
      (s.participant_id == some p && s.event_occurrence_id == form.event_id) := by
    intro s
    rw [hp, sqlEqOpt_some_right]
  constructor
  · rintro ⟨s, hs, hps, hes⟩
    simp only [submitSurveyHandler, hl', if_true]
    rcases hfind : db.surveys.find? (fun s =>
        sqlEqOpt s.participant_id sess.participantId &&
        s.event_occurrence_id == form.event_id) with _ | found
    · exfalso
      have := List.find?_eq_none.mp hfind s hs
      apply this
      rw [hpred]
      simp [hps, hes]
    · rw [hfind]
  · intro hinv p' e
    simp only [submitSurveyHandler, hl', if_true]
    rcases hfind : db.surveys.find? (fun s =>
        sqlEqOpt s.participant_id sess.participantId &&
        s.event_occurrence_id == form.event_id) with _ | found
    · rw [hfind]
      dsimp only
      simp only [List.filter_append, List.length_append]
      by_cases hmatch : ((some p : Option Nat) == some p' &&
          form.event_id == e) = true
      · have hpp : p = p' := by
          have := (Bool.and_eq_true _ _).mp hmatch
          simpa using this.1
        have hee : form.event_id = e := by
          have := (Bool.and_eq_true _ _).mp hmatch
          simpa using this.2
        have hnil : db.surveys.filter (fun s =>
            s.participant_id == some p' && s.event_occurrence_id == e) = [] := by
          rw [List.filter_eq_nil_iff]
          intro s hs
          have hnone := List.find?_eq_none.mp hfind s hs
          rw [hpred] at hnone
          subst hpp
          subst hee
          simpa using hnone
        rw [hnil]
        simpa using length_filter_singleton_le_one _ _
      · rw [Bool.not_eq_true] at hmatch
        have hrow : (List.filter (fun s : Survey =>
            s.participant_id == some p' && s.event_occurrence_id == e)
            [{ survey_id := nid
               participant_id := sess.participantId
               event_occurrence_id := form.event_id
               score_satisfaction := form.satisfaction
               score_usefulness := form.usefulness
               score_instructor := form.instructor
               score_recommendation := form.recommend
               score_overall := form.overall
               nps_bucket_id := npsBucket form.recommend
               comments := form.comments
               submission_date := today }]) = ([] : List Survey) := by
          simp only [List.filter_cons, List.filter_nil]
          rw [hp]
          simp [hmatch]
          intro hpp hee
          subst hpp
          subst hee
          simp at hmatch
        rw [hrow]
        simpa using hinv p' e
    · rw [hfind]
      exact hinv p' e

/-- Witness for the amended one-survey-per-pair claim: in a database
already holding participant 1's survey for event 7, a second submission
returns the unchanged state and the silent redirect. -/
theorem submit_survey_one_per_pair_witness :
    submitSurveyHandler none userSession sampleForm
      (addSurveyHandler none mgrSession dupSurveyBody dbEmpty 10 sampleDate).1
      11 sampleDate =
    ((addSurveyHandler none mgrSession dupSurveyBody dbEmpty 10 sampleDate).1,
     .redirect "/events") :=
  (submit_survey_one_per_pair userSession sampleForm
      (addSurveyHandler none mgrSession dupSurveyBody dbEmpty 10 sampleDate).1
      11 sampleDate 1 rfl rfl).1
    ⟨surveyFromBody dupSurveyBody 10 sampleDate, by decide, by decide, by decide⟩

/-- A users table with 250 distinct rows. -/
def manyUsers : List UserRow :=
  (List.range 250).map (fun i =>
    { user_id := i, username := "u", password := "p", role := "user",
      participant_id := none })

/-- The empty database carrying the 250 users. -/
def dbManyUsers : DBState := { dbEmpty with users := manyUsers }

/-- C6 counterexample: `GET /users` applies no `limit`/`offset` and
renders no page count, so with 250 matching rows a `page=1` request
returns all 250 rows (the claim demands 100) and reports no
`totalPages`. -/
theorem users_listing_is_unpaginated :
    (respRowsU (usersHandler none mgrSession dbManyUsers (some "1") none)).length
        = 250 ∧
    respTotalPages (usersHandler none mgrSession dbManyUsers (some "1") none)
        = 0 := by
  constructor
  · have hm : isManagerSess mgrSession = true := by decide
    simp [usersHandler, hm, respRowsU, usersMatching, applySearch,
      length_sortBy, dbManyUsers, manyUsers]
  · rfl

/-- Pagination contract of one rendered listing: the page holds the rows
at offset `(page-1)*100` of the ordered matching rows, the reported page
count is `ceil(total/100)`, and in particular 250 matching rows give 100
rows on page 1, 50 rows on page 3, and 3 total pages. -/
def PaginatesAt (rows : List α) (resp : Response)
    (rowsOf : Response → List α) (pg : Int) : Prop :=
  rowsOf resp = (rows.drop (pageOffset pg)).take pageSize ∧
  respTotalPages resp = totalPagesOf rows.length ∧
  (rowsOf resp).length = min pageSize (rows.length - pageOffset pg) ∧
  (rows.length = 250 →
    (pg = 1 → (rowsOf resp).length = 100) ∧
    (pg = 3 → (rowsOf resp).length = 50) ∧
    respTotalPages resp = 3)

/-- Auxiliary: the pagination contract holds for a rendered `ListView`
built the way every paginated core builds it. -/
theorem paginatesAt_of_view (rows : List α) (resp : Response)
    (rowsOf : Response → List α) (pg : Int)
    (hrows : rowsOf resp = (rows.drop (pageOffset pg)).take pageSize)
    (htp : respTotalPages resp = totalPagesOf rows.length) :
    PaginatesAt rows resp rowsOf pg := by
  have hlen : (rowsOf resp).length = min pageSize (rows.length - pageOffset pg) := by
    rw [hrows, List.length_take, List.length_drop]
  refine ⟨hrows, htp, hlen, ?_⟩
  intro h250
  refine ⟨?_, ?_, ?_⟩
  · intro h1
    subst h1
    rw [hlen, h250]
    decide
  · intro h3
    subst h3
    rw [hlen, h250]
    decide
  · rw [htp, h250]
    decide

/-- C6 (amended: the users listing is excluded — `GET /users` fetches
every matching row with no pagination — while the other five listings
paginate): the participants, donations, surveys, events and milestones
listings page with fixed size 100 and a 1-indexed page parameter,
return the rows at offset `(page-1)*100`, and report
`totalPages = ceil(matching/100)`; with 250 matching rows, page 1 holds
100 rows, page 3 holds 50 rows, and `totalPages = 3`. -/
theorem listings_paginate_by_100 (sess : Session) (db : DBState)
    (pp q : Option String) (hl : sess.isLoggedIn = true)
    (_hpg : 1 ≤ resolvePage pp) :
    PaginatesAt (participantsMatching sess q db)
      (participantsHandler none sess db pp q) respRowsP (resolvePage pp) ∧
    PaginatesAt (donationsMatching sess q db)
      (donationsHandler none sess db pp q) respRowsD (resolvePage pp) ∧
    PaginatesAt (surveysMatching sess q db)
      (surveysHandler none sess db pp q) respRowsS (resolvePage pp) ∧
    PaginatesAt (eventsMatching sess q db)
      (eventsHandler none sess db pp q) respRowsE (resolvePage pp) ∧
    PaginatesAt (milestonesMatching sess q db)
      (milestonesHandler none sess db pp q) respRowsM (resolvePage pp) := by
  have hl' : isLoggedInSess sess = true := hl
  refine ⟨?_, ?_, ?_, ?_, ?_⟩
  · exact paginatesAt_of_view _ _ _ _
      (by simp [participantsHandler, hl', participantsCore, respRowsP])
      (by simp [participantsHandler, hl', participantsCore, respTotalPages])
  · exact paginatesAt_of_view _ _ _ _
      (by simp [donationsHandler, hl', donationsCore, respRowsD])
      (by simp [donationsHandler, hl', donationsCore, respTotalPages])
  · exact paginatesAt_of_view _ _ _ _
      (by simp [surveysHandler, hl', surveysCore, respRowsS])
      (by simp [surveysHandler, hl', surveysCore, respTotalPages])
  · exact paginatesAt_of_view _ _ _ _
      (by simp [eventsHandler, hl', eventsCore, respRowsE])
      (by simp [eventsHandler, hl', eventsCore, respTotalPages])
  · exact paginatesAt_of_view _ _ _ _
      (by simp [milestonesHandler, hl', milestonesCore, respRowsM])
      (by simp [milestonesHandler, hl', milestonesCore, respTotalPages])

/-- Witness for the amended pagination claim at the manager session,
small database and an explicit `page=1`. -/
theorem listings_paginate_by_100_witness :
    PaginatesAt (participantsMatching mgrSession none dbSmall)
      (participantsHandler none mgrSession dbSmall (some "1") none)
      respRowsP (resolvePage (some "1")) :=
  (listings_paginate_by_100 mgrSession dbSmall (some "1") none rfl (by decide)).1

/-- C7: the two failure modes of `POST /login` — username found but
password mismatched, and username not found at all — produce the same
response: the login form re-rendered with the one generic
"Invalid credentials" message.  The response never reveals whether the
username existed. -/
theorem login_failures_indistinguishable (db : DBState)
    (sess1 sess2 : Session) (u1 p1 u2 p2 : String) (u : UserRow)
    (hfound : findUser db u1 = some u) (hpw : u.password ≠ p1)
    (hmissing : findUser db u2 = none) :
    (loginHandler none sess1 db u1 p1).2 = (loginHandler none sess2 db u2 p2).2 ∧
    (loginHandler none sess1 db u1 p1).2 = .renderLogin (some "Invalid credentials") ∧
    (loginHandler none sess1 db u1 p1).1 = sess1 := by
  have hpw' : (u.password == p1) = false := beq_eq_false_iff_ne.mpr hpw
  refine ⟨?_, ?_, ?_⟩ <;>
    simp [loginHandler, hfound, hmissing, hpw']

/-- Witness for the login-indistinguishability claim: a wrong password
for the existing `boss` account and a login attempt for the absent
`ghost` account yield equal responses. -/
theorem login_failures_indistinguishable_witness :
    (loginHandler none emptySession dbSmall "boss" "nope").2 =
      (loginHandler none emptySession dbSmall "ghost" "x").2 :=
  (login_failures_indistinguishable dbSmall emptySession emptySession
    "boss" "nope" "ghost" "x"
    { user_id := 5, username := "boss", password := "pw",
      role := "manager", participant_id := some 1 }
    (by decide) (by decide) (by decide)).1

/-- C8: for both image routes the target participant defaults to the
caller's own linked participant and is overridden by the form field only
for managers; the session's cached picture URL is rewritten exactly when
the resolved target is the caller's own participant id, the session is
untouched in every other case, and both routes respond with the plain
redirect. -/
theorem image_routes_target_and_session (sess : Session) (body : ImageBody)
    (db : DBState) (url : String) (p : Nat)
    (hl : sess.isLoggedIn = true) (hp : sess.participantId = some p) :
    ((sess.role ≠ some "manager" ∨ body.participant_id = none) →
        resolveTargetId sess body = sess.participantId) ∧
    (∀ t, sess.role = some "manager" → body.participant_id = some t →
        resolveTargetId sess body = some t) ∧
    (uploadImageHandler none sess body (some url) db).2.1 =
      (if resolveTargetId sess body = some p
       then { sess with profilePictureUrl := some url } else sess) ∧
    (uploadImageHandler none sess body (some url) db).2.2 =
      .redirect "/participants" ∧
    (deleteImageHandler none sess body db).2.1 =
      (if resolveTargetId sess body = some p
       then { sess with profilePictureUrl := none } else sess) ∧
    (deleteImageHandler none sess body db).2.2 = .redirect "/participants" := by
  have hl' : isLoggedInSess sess = true := hl
  have hjs : jsStrictEqNat (resolveTargetId sess body) sess.participantId =
      decide (resolveTargetId sess body = some p) := by
    rw [hp]
    cases htgt : resolveTargetId sess body with
    | none => simp [jsStrictEqNat]
    | some t =>
      by_cases ht : t = p
      · subst ht
        simp [jsStrictEqNat]
      · simp [jsStrictEqNat, ht]
  refine ⟨?_, ?_, ?_, ?_, ?_, ?_⟩
  · intro h
    rcases h with h | h
    · have : (sess.role == some "manager") = false := beq_eq_false_iff_ne.mpr h
      simp [resolveTargetId, this]
    · simp [resolveTargetId, h]
  · intro t hm hb
    simp [resolveTargetId, hm, hb]
  · simp only [uploadImageHandler, hl', if_true, hjs]
    by_cases htgt : resolveTargetId sess body = some p <;> simp [htgt]
  · simp only [uploadImageHandler, hl', if_true, hjs]
    by_cases htgt : resolveTargetId sess body = some p <;> simp [htgt]
  · simp only [deleteImageHandler, hl', if_true, hjs]
    by_cases htgt : resolveTargetId sess body = some p <;> simp [htgt]
  · simp only [deleteImageHandler, hl', if_true, hjs]
    by_cases htgt : resolveTargetId sess body = some p <;> simp [htgt]

/-- Witness for the image-route claim: the ordinary user session with no
override field targets itself, so its cached URL is refreshed. -/
theorem image_routes_target_and_session_witness :
    resolveTargetId userSession { participant_id := none } = userSession.participantId ∧
    (uploadImageHandler none userSession { participant_id := none }
        (some "https://s3/x.png") dbSmall).2.1 =
      (if resolveTargetId userSession { participant_id := none } = some 1
       then { userSession with profilePictureUrl := some "https://s3/x.png" }
       else userSession) :=
  ⟨(image_routes_target_and_session userSession { participant_id := none }
      dbSmall "https://s3/x.png" 1 rfl rfl).1 (Or.inr rfl),
   (image_routes_target_and_session userSession { participant_id := none }
      dbSmall "https://s3/x.png" 1 rfl rfl).2.2.1⟩

/-- C9 counterexample: `GET /dashboard` wraps its three count queries in
a `try` whose `catch` only logs, so on a database error the manager still
receives the normal dashboard render (a success response showing the
initial zero stats) — the error is silently swallowed, not surfaced as
a 500. -/
theorem dashboard_swallows_db_error :
    dashboardHandler (some "connection terminated") mgrSession dbSmall 9 =
      .renderDashboard "Good Morning" (some "Boss") 0 0 0 := by
  decide

/-- C9 (amended: routes with a `try`/`catch` surface a database error as
an immediate response — a 500 for the listing, image, cascade-delete,
survey-submission and public-donation routes, an error-message form
re-render for login and signup — but `GET /dashboard` and `GET /donate`
catch the error and render a normal success page, and the bare add /
edit / user-delete handlers have no `catch` at all and send no response;
nothing retries): every embedded route's behaviour under a failing
database, in one statement. -/
theorem db_errors_surface_without_retry (e : String) (sess : Session)
    (db : DBState) (pp q : Option String) (hour : Nat)
    (form : SubmitSurveyForm) (sbody : SurveyBody) (ibody : ImageBody)
    (dbody : DonateBody) (gbody : SignupBody) (url : String)
    (pid nid uid sid k : Nat) (today : Date) (username password : String)
    (hl : sess.isLoggedIn = true) (hm : sess.role = some "manager")
    (hu : sess.userId = none) (hk : k < 6) :
    participantsHandler (some e) sess db pp q =
      .serverError "Error fetching participants" ∧
    donationsHandler (some e) sess db pp q = .serverError "Error" ∧
    surveysHandler (some e) sess db pp q = .serverError "Error" ∧
    eventsHandler (some e) sess db pp q = .serverError "Error" ∧
    milestonesHandler (some e) sess db pp q = .serverError "Error" ∧
    usersHandler (some e) sess db pp q = .serverError "Error retrieving users" ∧
    submitSurveyHandler (some e) sess form db nid today =
      (db, .serverError ("Error submitting survey: " ++ e)) ∧
    uploadImageHandler (some e) sess ibody (some url) db =
      (db, sess, .serverError "Error uploading image") ∧
    deleteImageHandler (some e) sess ibody db =
      (db, sess, .serverError "Error deleting image") ∧
    participantsDeleteHandler sess pid db (some k) =
      (db, .serverError "Error deleting participant. They may have other linked records.") ∧
    loginHandler (some e) sess db username password =
      (sess, .renderLogin (some "System Error")) ∧
    signupHandler (some e) sess db gbody pid uid =
      (db, sess,
       .renderSignup (some "Error creating account. Username or Email might already be taken.")) ∧
    donatePostHandler (some e) dbody db pid nid today =
      (db, .serverError "Error processing donation.") ∧
    dashboardHandler (some e) sess db hour =
      .renderDashboard (greetingFor hour) (sess.username.map capitalizeFirst) 0 0 0 ∧
    donateGetHandler (some e) sess db = .renderDonate none none ∧
    addSurveyHandler (some e) sess sbody db sid today = (db, none) ∧
    editSurveyHandler (some e) sess sid sbody db = (db, none) ∧
    usersDeleteHandler (some e) sess pid db = (db, none) := by
  have hl' : isLoggedInSess sess = true := hl
  have hmgr : isManagerSess sess = true := by
    simp [isManagerSess, hl, hm]
  have hsc : isScoped sess = false := by
    simp [isScoped, hm]
  have hlen : k < (cascadeSteps pid).length := by
    simpa [cascadeSteps] using hk
  refine ⟨?_, ?_, ?_, ?_, ?_, ?_, ?_, ?_, ?_, ?_, ?_, ?_, ?_, ?_, ?_, ?_, ?_, ?_⟩
  · simp [participantsHandler, hl', participantsCore]
  · simp [donationsHandler, hl', donationsCore]
  · simp [surveysHandler, hl', surveysCore]
  · simp [eventsHandler, hl', eventsCore]
  · simp [milestonesHandler, hl', milestonesCore]
  · simp [usersHandler, hmgr]
  · simp [submitSurveyHandler, hl']
  · simp [uploadImageHandler, hl']
  · simp [deleteImageHandler, hl']
  · simp [participantsDeleteHandler, hmgr, runTransaction, hlen]
  · simp [loginHandler]
  · simp [signupHandler]
  · simp [donatePostHandler]
  · simp [dashboardHandler, hl', hsc]
  · cases hpid : sess.participantId <;>
      simp [donateGetHandler, hl, hpid]
  · simp [addSurveyHandler, hmgr]
  · simp [editSurveyHandler, hmgr]
  · simp [usersDeleteHandler, hmgr, jsStrictEqNat, hu]

/-- Witness for the amended database-error claim, instantiated at the
manager session over the small database. -/
theorem db_errors_surface_without_retry_witness :
    participantsHandler (some "boom") mgrSession dbSmall none none =
      .serverError "Error fetching participants" ∧
    dashboardHandler (some "boom") mgrSession dbSmall 9 =
      .renderDashboard (greetingFor 9) (mgrSession.username.map capitalizeFirst) 0 0 0 :=
  ⟨(db_errors_surface_without_retry "boom" mgrSession dbSmall none none 9
      sampleForm dupSurveyBody { participant_id := none }
      { first_name := "A", last_name := "B", email := "a@b.c", donation_amount := 1 }
      { username := "n", password := "p", first_name := "A", last_name := "B",
        email := "a@b.c" }
      "u" 1 2 3 4 0 sampleDate "x" "y" rfl rfl rfl (by decide)).1,
   (db_errors_surface_without_retry "boom" mgrSession dbSmall none none 9
      sampleForm dupSurveyBody { participant_id := none }
      { first_name := "A", last_name := "B", email := "a@b.c", donation_amount := 1 }
      { username := "n", password := "p", first_name := "A", last_name := "B",
        email := "a@b.c" }
      "u" 1 2 3 4 0 sampleDate "x" "y" rfl rfl rfl
      (by decide)).2.2.2.2.2.2.2.2.2.2.2.2.2.1⟩

/-- C10: a listing request whose `page` parameter is absent, non-numeric
(`parseInt` gives `NaN`) or parses to `0` is handled exactly as
`page=1`: every listing returns the very same response as an explicit
`page=1` request. -/
theorem bad_page_param_is_page_one (dbErr : Option String) (sess : Session)
    (db : DBState) (q : Option String) (pp : Option String)
    (h : pp = none ∨ ∃ s, pp = some s ∧
        (jsParseInt s = none ∨ jsParseInt s = some 0)) :
    participantsHandler dbErr sess db pp q =
      participantsHandler dbErr sess db (some "1") q ∧
    donationsHandler dbErr sess db pp q =
      donationsHandler dbErr sess db (some "1") q ∧
    surveysHandler dbErr sess db pp q =
      surveysHandler dbErr sess db (some "1") q ∧
    eventsHandler dbErr sess db pp q =
      eventsHandler dbErr sess db (some "1") q ∧
    milestonesHandler dbErr sess db pp q =
      milestonesHandler dbErr sess db (some "1") q ∧
    usersHandler dbErr sess db pp q =
      usersHandler dbErr sess db (some "1") q := by
  have hpg : resolvePage pp = resolvePage (some "1") := by
    have h1 : resolvePage (some "1") = 1 := by decide
    rw [h1]
    rcases h with h | ⟨s, hps, h⟩
    · rw [h]
      rfl
    · rcases h with h | h <;>
        simp [hps, resolvePage, h]
  refine ⟨?_, ?_, ?_, ?_, ?_, rfl⟩ <;>
    simp only [participantsHandler, donationsHandler, surveysHandler,
      eventsHandler, milestonesHandler, hpg]

/-- Witness for the page-parameter claim at the non-numeric value
`"abc"`. -/
theorem bad_page_param_is_page_one_witness :
    participantsHandler none mgrSession dbSmall (some "abc") none =
      participantsHandler none mgrSession dbSmall (some "1") none :=
  (bad_page_param_is_page_one none mgrSession dbSmall none (some "abc")
    (Or.inr ⟨"abc", rfl, Or.inl (by decide)⟩)).1

end EllaRises
